import Mathlib

/-!
Verification of the financial projection engine and input sanitizer of
howmuchtosave (src/app.js).  The engine (method calculate, lines 172-247)
is embedded over the real numbers: JavaScript Math.pow on a positive base
is real exponentiation, so it is modelled by Real.rpow.  The isFinite and
isNaN checks of the source guard (line 221) have no counterpart in exact
real arithmetic, where every value is finite; the residual guard is the
clamp of a negative payment to 0.  The sanitizer (method sanitizeInput,
lines 75-101) is pure string processing and is embedded computably over
lists of characters; JavaScript value.split(\x27.\x27) is modelled by
splitOnDot.
-/

namespace HowMuchToSave

/-- The result object that calculate hands to displayResults
(src/app.js lines 177-183 and 240-246): fields monthlyPayment,
totalSaved, interestEarned, finalAmount, progressPercentage. -/
structure ProjectionResult where
  monthlyPayment : ℝ
  totalSaved : ℝ
  interestEarned : ℝ
  finalAmount : ℝ
  progressPercentage : ℝ

noncomputable section

/-- src/app.js line 190: monthlyRate = annualReturn / 100 / 12. -/
def monthlyRate (annualReturn : ℝ) : ℝ := annualReturn / 100 / 12

/-- src/app.js line 191: totalMonths = timeHorizon * 12. -/
def totalMonths (timeHorizon : ℝ) : ℝ := timeHorizon * 12

/-- src/app.js line 188: effectiveCurrentSavings = Math.min(currentSavings, goalAmount). -/
def effectiveCurrentSavings (goalAmount currentSavings : ℝ) : ℝ :=
  min currentSavings goalAmount

/-- src/app.js lines 194-203: future value of current savings; compound
growth Math.pow(1 + monthlyRate, totalMonths) applies only when
effectiveCurrentSavings > 0 and annualReturn > 0. -/
def futureValueOfCurrentSavings (goalAmount timeHorizon annualReturn currentSavings : ℝ) : ℝ :=
  if 0 < effectiveCurrentSavings goalAmount currentSavings then
    if 0 < annualReturn then
      effectiveCurrentSavings goalAmount currentSavings *
        (1 + monthlyRate annualReturn) ^ totalMonths timeHorizon
    else
      effectiveCurrentSavings goalAmount currentSavings
  else 0

/-- src/app.js line 212: futureValueFactor = (Math.pow(1 + monthlyRate, totalMonths) - 1) / monthlyRate. -/
def futureValueFactor (timeHorizon annualReturn : ℝ) : ℝ :=
  ((1 + monthlyRate annualReturn) ^ totalMonths timeHorizon - 1) / monthlyRate annualReturn

/-- src/app.js line 206: requiredFromPayments = Math.max(0, goalAmount - futureValueOfCurrentSavings). -/
def requiredFromPayments (goalAmount timeHorizon annualReturn currentSavings : ℝ) : ℝ :=
  max 0 (goalAmount - futureValueOfCurrentSavings goalAmount timeHorizon annualReturn currentSavings)

/-- src/app.js lines 208-218: the monthly payment before the validity guard.
Annuity inversion when annualReturn > 0 and monthlyRate > 0, simple division
by totalMonths otherwise, and 0 when requiredFromPayments is not positive. -/
def rawMonthlyPayment (goalAmount timeHorizon annualReturn currentSavings : ℝ) : ℝ :=
  if 0 < requiredFromPayments goalAmount timeHorizon annualReturn currentSavings then
    if 0 < annualReturn ∧ 0 < monthlyRate annualReturn then
      requiredFromPayments goalAmount timeHorizon annualReturn currentSavings /
        futureValueFactor timeHorizon annualReturn
    else
      requiredFromPayments goalAmount timeHorizon annualReturn currentSavings /
        totalMonths timeHorizon
  else 0

/-- src/app.js lines 220-223: the validity guard.  In exact real arithmetic
no value is NaN or infinite, so of the source condition
!isFinite(monthlyPayment) or isNaN(monthlyPayment) or monthlyPayment < 0
only the negativity test remains. -/
def monthlyPayment (goalAmount timeHorizon annualReturn currentSavings : ℝ) : ℝ :=
  if rawMonthlyPayment goalAmount timeHorizon annualReturn currentSavings < 0 then 0
  else rawMonthlyPayment goalAmount timeHorizon annualReturn currentSavings

/-- src/app.js lines 226-227: totalPrincipal = effectiveCurrentSavings + monthlyPayment * totalMonths. -/
def totalPrincipal (goalAmount timeHorizon annualReturn currentSavings : ℝ) : ℝ :=
  effectiveCurrentSavings goalAmount currentSavings +
    monthlyPayment goalAmount timeHorizon annualReturn currentSavings * totalMonths timeHorizon

/-- src/app.js line 232: future value of the payment stream (0 when the
payment is not positive). -/
def futureValueOfPayments (goalAmount timeHorizon annualReturn currentSavings : ℝ) : ℝ :=
  if 0 < monthlyPayment goalAmount timeHorizon annualReturn currentSavings then
    monthlyPayment goalAmount timeHorizon annualReturn currentSavings *
      futureValueFactor timeHorizon annualReturn
  else 0

/-- src/app.js lines 230-235: interest earned, floored at 0, and 0 outright
at a non-positive rate. -/
def totalInterestEarned (goalAmount timeHorizon annualReturn currentSavings : ℝ) : ℝ :=
  if 0 < annualReturn then
    max 0 (futureValueOfCurrentSavings goalAmount timeHorizon annualReturn currentSavings +
      futureValueOfPayments goalAmount timeHorizon annualReturn currentSavings -
      totalPrincipal goalAmount timeHorizon annualReturn currentSavings)
  else 0

/-- src/app.js line 237: finalAmount (the local variable) = totalPrincipal + totalInterestEarned. -/
def finalAmountComputed (goalAmount timeHorizon annualReturn currentSavings : ℝ) : ℝ :=
  totalPrincipal goalAmount timeHorizon annualReturn currentSavings +
    totalInterestEarned goalAmount timeHorizon annualReturn currentSavings

/-- src/app.js line 238: progressPercentage = goalAmount > 0 ? Math.min(100, finalAmount / goalAmount * 100) : 0. -/
def progressPercentage (goalAmount timeHorizon annualReturn currentSavings : ℝ) : ℝ :=
  if 0 < goalAmount then
    min 100 (finalAmountComputed goalAmount timeHorizon annualReturn currentSavings / goalAmount * 100)
  else 0

/-- src/app.js lines 172-247, method calculate: the degenerate short-circuit
for goalAmount <= 0 or timeHorizon <= 0 (lines 176-185), otherwise the
projection; the finalAmount field of the result is the original goalAmount
(line 244), not the computed finalAmount local. -/
def calculate (goalAmount timeHorizon annualReturn currentSavings : ℝ) : ProjectionResult :=
  if goalAmount ≤ 0 ∨ timeHorizon ≤ 0 then
    ⟨0, currentSavings, 0, goalAmount, 0⟩
  else
    ⟨monthlyPayment goalAmount timeHorizon annualReturn currentSavings,
     totalPrincipal goalAmount timeHorizon annualReturn currentSavings,
     totalInterestEarned goalAmount timeHorizon annualReturn currentSavings,
     goalAmount,
     progressPercentage goalAmount timeHorizon annualReturn currentSavings⟩

/-- src/app.js line 264: the width of the progress bar is
results.totalSaved * 100 / results.finalAmount (the commented-out line 263
using progressPercentage is dead code). -/
def progressBarWidth (results : ProjectionResult) : ℝ :=
  results.totalSaved * 100 / results.finalAmount

end

/-- JavaScript str.split(\x27.\x27) on the character list of str: the list of
maximal groups between the dots; the empty string splits to one empty group. -/
def splitOnDot : List Char → List (List Char)
  | [] => [[]]
  | c :: cs =>
    if c = '.' then [] :: splitOnDot cs
    else
      match splitOnDot cs with
      | [] => [[c]]
      | p :: ps => (c :: p) :: ps

/-- src/app.js lines 75-91, the character-level body of sanitizeInput:
line 80 removes every character outside [0-9.]; lines 83-86 split on the
dot and, when there are more than two parts, keep the first part, one dot,
and the concatenation of the remaining parts; lines 89-91, only for the
annual-return field and only when the split has exactly two parts, keep the
first part, one dot, and the first two characters of the second part. -/
def sanitizeChars (isRateField : Bool) (cs : List Char) : List Char :=
  let filtered := cs.filter fun c => c.isDigit || c == '.'
  let parts := splitOnDot filtered
  let collapsed :=
    if 2 < parts.length then parts.headD [] ++ '.' :: (parts.drop 1).flatten
    else filtered
  if isRateField && parts.length == 2 then
    parts.headD [] ++ '.' :: (parts.getD 1 []).take 2
  else collapsed

/-- src/app.js lines 75-101, method sanitizeInput, as a pure function from
the raw field text to the sanitized field text (the cursor bookkeeping of
lines 93-100 only writes the same string back to the DOM). -/
def sanitizeInput (isRateField : Bool) (value : String) : String :=
  String.mk (sanitizeChars isRateField value.data)

/-- Spec-side definition (section 4.1 of the spec): strip all characters
outside the set of digits and the decimal point. -/
def stripToNumeric (cs : List Char) : List Char :=
  cs.filter fun c => c.isDigit || c == '.'

/-- Spec-side definition (section 4.1 of the spec): collapse multiple
decimal points into one by keeping the first and concatenating the
remaining digit groups after it; a string with at most one point is
unchanged. -/
def collapseDecimalPoints (cs : List Char) : List Char :=
  if (splitOnDot cs).length ≤ 1 then cs
  else (splitOnDot cs).headD [] ++ '.' :: ((splitOnDot cs).drop 1).flatten

/-- Spec-side definition (section 4.1 of the spec): truncate, not round,
the fractional part to at most 2 digits; a string without a decimal point
is unchanged. -/
def truncateFractionTwo (cs : List Char) : List Char :=
  if 2 ≤ (splitOnDot cs).length then
    (splitOnDot cs).headD [] ++ '.' :: ((splitOnDot cs).getD 1 []).take 2
  else cs

/-- The rate-field sanitizer as claim C7 words it: strip, collapse, then
always truncate the fractional part to at most two digits. -/
def claimedRateSanitize (value : String) : String :=
  String.mk (truncateFractionTwo (collapseDecimalPoints (stripToNumeric value.data)))

/-- Inverse of splitOnDot: rejoin the groups with a dot between them. -/
def joinDots : List (List Char) → List Char
  | [] => []
  | [p] => p
  | p :: ps => p ++ '.' :: joinDots ps

theorem monthlyRate_pos {r : ℝ} (hr : 0 < r) : 0 < monthlyRate r := by
  unfold monthlyRate; positivity

theorem monthlyRate_zero : monthlyRate 0 = 0 := by
  unfold monthlyRate; norm_num

theorem totalMonths_pos {t : ℝ} (ht : 0 < t) : 0 < totalMonths t := by
  unfold totalMonths; linarith

theorem one_lt_growthFactor {t r : ℝ} (ht : 0 < t) (hr : 0 < r) :
    1 < (1 + monthlyRate r) ^ totalMonths t := by
  have hmr := monthlyRate_pos hr
  have h1 : (0 : ℝ) < 1 + monthlyRate r := by linarith
  rw [Real.one_lt_rpow_iff_of_pos h1]
  exact Or.inl ⟨by linarith, totalMonths_pos ht⟩

theorem growthFactor_nonneg {r : ℝ} (t : ℝ) (hr : 0 ≤ r) :
    0 ≤ (1 + monthlyRate r) ^ totalMonths t := by
  apply Real.rpow_nonneg
  have : 0 ≤ monthlyRate r := by unfold monthlyRate; positivity
  linarith

theorem futureValueFactor_pos {t r : ℝ} (ht : 0 < t) (hr : 0 < r) :
    0 < futureValueFactor t r := by
  unfold futureValueFactor
  exact div_pos (by have := one_lt_growthFactor ht hr; linarith) (monthlyRate_pos hr)

theorem effectiveCurrentSavings_nonneg {g s : ℝ} (hg : 0 ≤ g) (hs : 0 ≤ s) :
    0 ≤ effectiveCurrentSavings g s :=
  le_min hs hg

theorem effectiveCurrentSavings_le_goal (g s : ℝ) : effectiveCurrentSavings g s ≤ g :=
  min_le_right s g

theorem fv_eq_pos_rate {g t r s : ℝ} (hg : 0 < g) (hr : 0 < r) (hs : 0 ≤ s) :
    futureValueOfCurrentSavings g t r s =
      effectiveCurrentSavings g s * (1 + monthlyRate r) ^ totalMonths t := by
  unfold futureValueOfCurrentSavings
  rcases (effectiveCurrentSavings_nonneg hg.le hs).eq_or_lt with h | h
  · rw [if_neg (by rw [← h]; exact lt_irrefl 0), ← h, zero_mul]
  · rw [if_pos h, if_pos hr]

theorem fv_eq_zero_rate {g t s : ℝ} (hg : 0 < g) (hs : 0 ≤ s) :
    futureValueOfCurrentSavings g t 0 s = effectiveCurrentSavings g s := by
  unfold futureValueOfCurrentSavings
  rcases (effectiveCurrentSavings_nonneg hg.le hs).eq_or_lt with h | h
  · rw [if_neg (by rw [← h]; exact lt_irrefl 0)]
    exact h
  · rw [if_pos h, if_neg (lt_irrefl 0)]

theorem required_nonneg (g t r s : ℝ) : 0 ≤ requiredFromPayments g t r s :=
  le_max_left 0 _

theorem raw_eq_pos_rate {r : ℝ} (g t s : ℝ) (hr : 0 < r) :
    rawMonthlyPayment g t r s =
      requiredFromPayments g t r s / futureValueFactor t r := by
  unfold rawMonthlyPayment
  rcases (required_nonneg g t r s).eq_or_lt with h | h
  · rw [if_neg (by rw [← h]; exact lt_irrefl 0), ← h, zero_div]
  · rw [if_pos h, if_pos ⟨hr, monthlyRate_pos hr⟩]

theorem raw_eq_zero_rate (g t s : ℝ) :
    rawMonthlyPayment g t 0 s = requiredFromPayments g t 0 s / totalMonths t := by
  unfold rawMonthlyPayment
  rcases (required_nonneg g t 0 s).eq_or_lt with h | h
  · rw [if_neg (by rw [← h]; exact lt_irrefl 0), ← h, zero_div]
  · rw [if_pos h, if_neg (by rw [monthlyRate_zero]; exact fun hc => lt_irrefl 0 hc.1)]

theorem raw_nonneg {t r : ℝ} (g s : ℝ) (ht : 0 < t) (hr : 0 ≤ r) :
    0 ≤ rawMonthlyPayment g t r s := by
  rcases hr.eq_or_lt with h | h
  · rw [← h, raw_eq_zero_rate]
    exact div_nonneg (required_nonneg g t 0 s) (totalMonths_pos ht).le
  · rw [raw_eq_pos_rate g t s h]
    exact div_nonneg (required_nonneg g t r s) (futureValueFactor_pos ht h).le

theorem monthlyPayment_nonneg (g t r s : ℝ) : 0 ≤ monthlyPayment g t r s := by
  unfold monthlyPayment
  split_ifs with h
  · exact le_refl 0
  · exact not_lt.mp h

theorem monthlyPayment_eq_raw {g t r s : ℝ} (h : 0 ≤ rawMonthlyPayment g t r s) :
    monthlyPayment g t r s = rawMonthlyPayment g t r s :=
  if_neg (not_lt.mpr h)

theorem calculate_valid {g t : ℝ} (r s : ℝ) (hg : 0 < g) (ht : 0 < t) :
    calculate g t r s =
      ⟨monthlyPayment g t r s, totalPrincipal g t r s, totalInterestEarned g t r s,
        g, progressPercentage g t r s⟩ := by
  unfold calculate
  rw [if_neg (by push_neg; exact ⟨hg, ht⟩)]

theorem calculate_monthlyPayment {g t : ℝ} (r s : ℝ) (hg : 0 < g) (ht : 0 < t) :
    (calculate g t r s).monthlyPayment = monthlyPayment g t r s := by
  rw [calculate_valid r s hg ht]

theorem calculate_totalSaved {g t : ℝ} (r s : ℝ) (hg : 0 < g) (ht : 0 < t) :
    (calculate g t r s).totalSaved = totalPrincipal g t r s := by
  rw [calculate_valid r s hg ht]

theorem calculate_interestEarned {g t : ℝ} (r s : ℝ) (hg : 0 < g) (ht : 0 < t) :
    (calculate g t r s).interestEarned = totalInterestEarned g t r s := by
  rw [calculate_valid r s hg ht]

theorem calculate_progressPercentage {g t : ℝ} (r s : ℝ) (hg : 0 < g) (ht : 0 < t) :
    (calculate g t r s).progressPercentage = progressPercentage g t r s := by
  rw [calculate_valid r s hg ht]

theorem calculate_finalAmount (g t r s : ℝ) : (calculate g t r s).finalAmount = g := by
  unfold calculate
  split_ifs <;> rfl

/-- C2: with goalAmount <= 0 or timeHorizonYears <= 0 the engine returns
exactly the degenerate tuple monthlyPayment = 0, totalPrincipal =
currentSavings, interestEarned = 0, finalAmount = goalAmount,
progressPercentage = 0, for every currentSavings, and this is an ordinary
result, not an error. -/
theorem claim_C2_degenerate (g t r s : ℝ) (h : g ≤ 0 ∨ t ≤ 0) :
    (calculate g t r s).monthlyPayment = 0 ∧
    (calculate g t r s).totalSaved = s ∧
    (calculate g t r s).interestEarned = 0 ∧
    (calculate g t r s).finalAmount = g ∧
    (calculate g t r s).progressPercentage = 0 := by
  unfold calculate
  rw [if_pos h]
  exact ⟨rfl, rfl, rfl, rfl, rfl⟩

theorem claim_C2_degenerate_witness :
    ((0 : ℝ) ≤ 0 ∨ (5 : ℝ) ≤ 0) ∧
    ((calculate 0 5 7 123456).monthlyPayment = 0 ∧
     (calculate 0 5 7 123456).totalSaved = 123456 ∧
     (calculate 0 5 7 123456).interestEarned = 0 ∧
     (calculate 0 5 7 123456).finalAmount = 0 ∧
     (calculate 0 5 7 123456).progressPercentage = 0) :=
  ⟨Or.inl le_rfl, claim_C2_degenerate 0 5 7 123456 (Or.inl le_rfl)⟩

/-- C3: the finalAmount field of every result is the original goalAmount
echoed back; it is not the computed projected total, as witnessed by an
input where totalSaved + interestEarned differs from finalAmount. -/
theorem claim_C3_finalAmount_echo :
    (∀ g t r s : ℝ, (calculate g t r s).finalAmount = g) ∧
    (calculate 5 0 0 3).totalSaved + (calculate 5 0 0 3).interestEarned ≠
      (calculate 5 0 0 3).finalAmount := by
  refine ⟨calculate_finalAmount, ?_⟩
  norm_num [calculate]

/-- C4: for every valid input (four non-negative reals) the engine is total
and returns monthlyPayment >= 0, totalPrincipal >= 0 and interestEarned >= 0;
the guard clamps a negative payment to 0 and interest is floored at 0. -/
theorem claim_C4_nonneg (g t r s : ℝ) (hg : 0 ≤ g) (ht : 0 ≤ t) (hr : 0 ≤ r) (hs : 0 ≤ s) :
    0 ≤ (calculate g t r s).monthlyPayment ∧
    0 ≤ (calculate g t r s).totalSaved ∧
    0 ≤ (calculate g t r s).interestEarned := by
  unfold calculate
  split_ifs with h
  · exact ⟨le_rfl, hs, le_rfl⟩
  · push_neg at h
    obtain ⟨hg1, ht1⟩ := h
    refine ⟨monthlyPayment_nonneg g t r s, ?_, ?_⟩
    · show 0 ≤ totalPrincipal g t r s
      unfold totalPrincipal
      have h1 := effectiveCurrentSavings_nonneg hg hs
      have h2 := mul_nonneg (monthlyPayment_nonneg g t r s) (totalMonths_pos ht1).le
      linarith
    · show 0 ≤ totalInterestEarned g t r s
      unfold totalInterestEarned
      split_ifs
      · exact le_max_left 0 _
      · exact le_rfl

theorem claim_C4_nonneg_witness :
    ((0 : ℝ) ≤ 50000 ∧ (0 : ℝ) ≤ 5 ∧ (0 : ℝ) ≤ 7 ∧ (0 : ℝ) ≤ 0) ∧
    (0 ≤ (calculate 50000 5 7 0).monthlyPayment ∧
     0 ≤ (calculate 50000 5 7 0).totalSaved ∧
     0 ≤ (calculate 50000 5 7 0).interestEarned) :=
  ⟨⟨by norm_num, by norm_num, by norm_num, le_rfl⟩,
   claim_C4_nonneg 50000 5 7 0 (by norm_num) (by norm_num) (by norm_num) le_rfl⟩

/-- C1: for goalAmount > 0 and timeHorizonYears > 0 (and non-negative rate
and savings) the engine grows min(currentSavings, goalAmount) by
(1 + monthlyRate)^totalMonths at a positive rate and leaves it unchanged at
zero rate, sets requiredFromPayments = max(0, goalAmount - futureValue),
and returns the annuity-inversion payment at a positive rate and the simple
division requiredFromPayments / totalMonths at zero rate, with
monthlyRate = annualReturnPercent/100/12 and totalMonths = timeHorizonYears*12. -/
theorem claim_C1_formula (g t r s : ℝ) (hg : 0 < g) (ht : 0 < t) (hr : 0 ≤ r) (hs : 0 ≤ s) :
    (0 < r → futureValueOfCurrentSavings g t r s =
      min s g * (1 + r / 100 / 12) ^ (t * 12)) ∧
    (r = 0 → futureValueOfCurrentSavings g t r s = min s g) ∧
    requiredFromPayments g t r s =
      max 0 (g - futureValueOfCurrentSavings g t r s) ∧
    (0 < r → (calculate g t r s).monthlyPayment =
      requiredFromPayments g t r s /
        (((1 + r / 100 / 12) ^ (t * 12) - 1) / (r / 100 / 12))) ∧
    (r = 0 → (calculate g t r s).monthlyPayment =
      requiredFromPayments g t r s / (t * 12)) := by
  refine ⟨?_, ?_, rfl, ?_, ?_⟩
  · intro h
    rw [fv_eq_pos_rate hg h hs]
    rfl
  · intro h
    subst h
    exact fv_eq_zero_rate hg hs
  · intro h
    rw [calculate_monthlyPayment r s hg ht,
      monthlyPayment_eq_raw (raw_nonneg g s ht hr), raw_eq_pos_rate g t s h]
    rfl
  · intro h
    subst h
    rw [calculate_monthlyPayment 0 s hg ht,
      monthlyPayment_eq_raw (raw_nonneg g s ht le_rfl), raw_eq_zero_rate]
    rfl

theorem claim_C1_formula_witness :
    ((0 : ℝ) < 50000 ∧ (0 : ℝ) < 5 ∧ (0 : ℝ) ≤ 7 ∧ (0 : ℝ) ≤ 2000) ∧
    ((0 < (7 : ℝ) → futureValueOfCurrentSavings 50000 5 7 2000 =
        min (2000 : ℝ) 50000 * (1 + 7 / 100 / 12) ^ ((5 : ℝ) * 12)) ∧
     ((7 : ℝ) = 0 → futureValueOfCurrentSavings 50000 5 7 2000 = min (2000 : ℝ) 50000) ∧
     requiredFromPayments 50000 5 7 2000 =
       max 0 (50000 - futureValueOfCurrentSavings 50000 5 7 2000) ∧
     (0 < (7 : ℝ) → (calculate 50000 5 7 2000).monthlyPayment =
       requiredFromPayments 50000 5 7 2000 /
         (((1 + 7 / 100 / 12) ^ ((5 : ℝ) * 12) - 1) / (7 / 100 / 12))) ∧
     ((7 : ℝ) = 0 → (calculate 50000 5 7 2000).monthlyPayment =
       requiredFromPayments 50000 5 7 2000 / ((5 : ℝ) * 12))) :=
  ⟨⟨by norm_num, by norm_num, by norm_num, by norm_num⟩,
   claim_C1_formula 50000 5 7 2000 (by norm_num) (by norm_num) (by norm_num) (by norm_num)⟩

/-- C5: at zero rate with currentSavings <= goalAmount the engine returns
interestEarned = 0, monthlyPayment = max(0, goalAmount - currentSavings) /
(timeHorizonYears * 12), and totalPrincipal = goalAmount. -/
theorem claim_C5_zero_rate (g t s : ℝ) (hg : 0 < g) (ht : 0 < t) (hs : 0 ≤ s) (hsg : s ≤ g) :
    (calculate g t 0 s).interestEarned = 0 ∧
    (calculate g t 0 s).monthlyPayment = max 0 (g - s) / (t * 12) ∧
    (calculate g t 0 s).totalSaved = g := by
  have heff : effectiveCurrentSavings g s = s := min_eq_left hsg
  have hfv : futureValueOfCurrentSavings g t 0 s = s := by
    rw [fv_eq_zero_rate hg hs, heff]
  have hreq : requiredFromPayments g t 0 s = max 0 (g - s) := by
    unfold requiredFromPayments
    rw [hfv]
  have hpay : monthlyPayment g t 0 s = max 0 (g - s) / (t * 12) := by
    rw [monthlyPayment_eq_raw (raw_nonneg g s ht le_rfl), raw_eq_zero_rate, hreq]
    rfl
  refine ⟨?_, ?_, ?_⟩
  · rw [calculate_interestEarned 0 s hg ht]
    unfold totalInterestEarned
    rw [if_neg (lt_irrefl 0)]
  · rw [calculate_monthlyPayment 0 s hg ht, hpay]
  · rw [calculate_totalSaved 0 s hg ht]
    unfold totalPrincipal
    rw [heff, hpay, max_eq_right (by linarith : (0 : ℝ) ≤ g - s)]
    unfold totalMonths
    rw [div_mul_cancel₀ _ (by positivity : (t : ℝ) * 12 ≠ 0)]
    ring

theorem claim_C5_zero_rate_witness :
    ((0 : ℝ) < 10000 ∧ (0 : ℝ) < 2 ∧ (0 : ℝ) ≤ 2000 ∧ (2000 : ℝ) ≤ 10000) ∧
    (calculate 10000 2 0 2000).interestEarned = 0 ∧
    (calculate 10000 2 0 2000).monthlyPayment = 8000 / 24 ∧
    (calculate 10000 2 0 2000).totalSaved = 10000 := by
  have h := claim_C5_zero_rate 10000 2 2000 (by norm_num) (by norm_num) (by norm_num) (by norm_num)
  refine ⟨⟨by norm_num, by norm_num, by norm_num, by norm_num⟩, h.1, ?_, h.2.2⟩
  rw [h.2.1]
  norm_num

/-- C6: with goalAmount, timeHorizonYears and annualReturnPercent fixed and
savings s1 <= s2 both within [0, goalAmount], the monthly payment computed
for s2 is at most the monthly payment computed for s1. -/
theorem claim_C6_antitone (g t r s1 s2 : ℝ) (hg : 0 < g) (ht : 0 < t) (hr : 0 ≤ r)
    (hs1 : 0 ≤ s1) (h12 : s1 ≤ s2) (hs2g : s2 ≤ g) :
    (calculate g t r s2).monthlyPayment ≤ (calculate g t r s1).monthlyPayment := by
  have hs2 : 0 ≤ s2 := hs1.trans h12
  have hs1g : s1 ≤ g := h12.trans hs2g
  rw [calculate_monthlyPayment r s1 hg ht, calculate_monthlyPayment r s2 hg ht]
  rcases hr.eq_or_lt with h | h
  · subst h
    rw [monthlyPayment_eq_raw (raw_nonneg g s1 ht le_rfl),
      monthlyPayment_eq_raw (raw_nonneg g s2 ht le_rfl),
      raw_eq_zero_rate, raw_eq_zero_rate]
    have req1 : requiredFromPayments g t 0 s1 = max 0 (g - s1) := by
      unfold requiredFromPayments
      rw [fv_eq_zero_rate hg hs1]
      unfold effectiveCurrentSavings
      rw [min_eq_left hs1g]
    have req2 : requiredFromPayments g t 0 s2 = max 0 (g - s2) := by
      unfold requiredFromPayments
      rw [fv_eq_zero_rate hg hs2]
      unfold effectiveCurrentSavings
      rw [min_eq_left hs2g]
    rw [req1, req2]
    have hmax : max 0 (g - s2) ≤ max 0 (g - s1) := max_le_max le_rfl (by linarith)
    exact (div_le_div_iff_of_pos_right (totalMonths_pos ht)).mpr hmax
  · rw [monthlyPayment_eq_raw (raw_nonneg g s1 ht hr),
      monthlyPayment_eq_raw (raw_nonneg g s2 ht hr),
      raw_eq_pos_rate g t s1 h, raw_eq_pos_rate g t s2 h]
    have hK := growthFactor_nonneg t hr
    have req_mono : requiredFromPayments g t r s2 ≤ requiredFromPayments g t r s1 := by
      unfold requiredFromPayments
      rw [fv_eq_pos_rate hg h hs1, fv_eq_pos_rate hg h hs2]
      unfold effectiveCurrentSavings
      rw [min_eq_left hs1g, min_eq_left hs2g]
      have hmul : s1 * (1 + monthlyRate r) ^ totalMonths t ≤
          s2 * (1 + monthlyRate r) ^ totalMonths t :=
        mul_le_mul_of_nonneg_right h12 hK
      exact max_le_max le_rfl (by linarith)
    exact (div_le_div_iff_of_pos_right (futureValueFactor_pos ht h)).mpr req_mono

theorem claim_C6_antitone_witness :
    ((0 : ℝ) < 10000 ∧ (0 : ℝ) < 2 ∧ (0 : ℝ) ≤ 7 ∧ (0 : ℝ) ≤ 1000 ∧
      (1000 : ℝ) ≤ 2000 ∧ (2000 : ℝ) ≤ 10000) ∧
    (calculate 10000 2 7 2000).monthlyPayment ≤ (calculate 10000 2 7 1000).monthlyPayment :=
  ⟨⟨by norm_num, by norm_num, by norm_num, by norm_num, by norm_num, by norm_num⟩,
   claim_C6_antitone 10000 2 7 1000 2000 (by norm_num) (by norm_num) (by norm_num)
     (by norm_num) (by norm_num) (by norm_num)⟩

theorem principal_zero_rate {g t s : ℝ} (hg : 0 < g) (ht : 0 < t) (hs : 0 ≤ s) :
    totalPrincipal g t 0 s = g := by
  have heff_le := effectiveCurrentSavings_le_goal g s
  have hreq : requiredFromPayments g t 0 s = g - effectiveCurrentSavings g s := by
    unfold requiredFromPayments
    rw [fv_eq_zero_rate hg hs]
    exact max_eq_right (by linarith)
  have hpay : monthlyPayment g t 0 s = (g - effectiveCurrentSavings g s) / totalMonths t := by
    rw [monthlyPayment_eq_raw (raw_nonneg g s ht le_rfl), raw_eq_zero_rate, hreq]
  unfold totalPrincipal
  rw [hpay, div_mul_cancel₀ _ (totalMonths_pos ht).ne']
  ring

theorem fv_add_fvp_ge_goal {g t r s : ℝ} (hg : 0 < g) (ht : 0 < t) (hr : 0 < r) (hs : 0 ≤ s) :
    g ≤ futureValueOfCurrentSavings g t r s + futureValueOfPayments g t r s := by
  have hF := futureValueFactor_pos ht hr
  rcases (required_nonneg g t r s).eq_or_lt with h | h
  · have hgle : g - futureValueOfCurrentSavings g t r s ≤ 0 := by
      have h2 : g - futureValueOfCurrentSavings g t r s ≤ requiredFromPayments g t r s :=
        le_max_right 0 _
      rw [← h] at h2
      exact h2
    have hfvp : 0 ≤ futureValueOfPayments g t r s := by
      unfold futureValueOfPayments
      split_ifs with hp
      · exact mul_nonneg hp.le hF.le
      · exact le_rfl
    linarith
  · have hpay : monthlyPayment g t r s = requiredFromPayments g t r s / futureValueFactor t r := by
      rw [monthlyPayment_eq_raw (raw_nonneg g s ht hr.le), raw_eq_pos_rate g t s hr]
    have hppos : 0 < monthlyPayment g t r s := by
      rw [hpay]
      exact div_pos h hF
    have hfvp : futureValueOfPayments g t r s = requiredFromPayments g t r s := by
      unfold futureValueOfPayments
      rw [if_pos hppos, hpay, div_mul_cancel₀ _ hF.ne']
    have hge : g - futureValueOfCurrentSavings g t r s ≤ requiredFromPayments g t r s :=
      le_max_right 0 _
    linarith

theorem goal_le_finalAmountComputed {g t r s : ℝ} (hg : 0 < g) (ht : 0 < t)
    (hr : 0 ≤ r) (hs : 0 ≤ s) :
    g ≤ finalAmountComputed g t r s := by
  rcases hr.eq_or_lt with h | h
  · subst h
    unfold finalAmountComputed
    rw [principal_zero_rate hg ht hs]
    have hint : totalInterestEarned g t 0 s = 0 := by
      unfold totalInterestEarned
      rw [if_neg (lt_irrefl 0)]
    rw [hint]
    linarith
  · unfold finalAmountComputed totalInterestEarned
    rw [if_pos h]
    have hkey := fv_add_fvp_ge_goal hg ht h hs
    have h2 : futureValueOfCurrentSavings g t r s + futureValueOfPayments g t r s -
        totalPrincipal g t r s ≤
        max 0 (futureValueOfCurrentSavings g t r s + futureValueOfPayments g t r s -
          totalPrincipal g t r s) :=
      le_max_right 0 _
    linarith

theorem progressPercentage_eq_100 {g t r s : ℝ} (hg : 0 < g) (ht : 0 < t)
    (hr : 0 ≤ r) (hs : 0 ≤ s) :
    progressPercentage g t r s = 100 := by
  unfold progressPercentage
  rw [if_pos hg]
  have h := goal_le_finalAmountComputed hg ht hr hs
  have h1 : (1 : ℝ) ≤ finalAmountComputed g t r s / g := (one_le_div hg).mpr h
  exact min_eq_left (by linarith)

/-- C10 counterexample: at goal 10000, horizon 1, rate 12, savings 9000 the
savings stay within the goal, yet the projected total
totalPrincipal + interestEarned strictly exceeds the goal, because the
future value of the savings alone outgrows the goal. -/
theorem claim_C10_counterexample :
    (9000 : ℝ) ≤ 10000 ∧
    10000 < (calculate 10000 1 12 9000).totalSaved + (calculate 10000 1 12 9000).interestEarned := by
  constructor
  · norm_num
  · have hpow : ((1 : ℝ) + monthlyRate 12) ^ totalMonths 1 = ((101 / 100 : ℝ)) ^ (12 : ℕ) := by
      have h1 : (1 : ℝ) + monthlyRate 12 = 101 / 100 := by
        unfold monthlyRate
        norm_num
      have h2 : totalMonths 1 = ((12 : ℕ) : ℝ) := by
        unfold totalMonths
        norm_num
      rw [h1, h2, Real.rpow_natCast]
    have heff : effectiveCurrentSavings 10000 9000 = 9000 := by
      unfold effectiveCurrentSavings
      rw [min_eq_left (by norm_num)]
    have hfv : futureValueOfCurrentSavings 10000 1 12 9000 =
        9000 * ((101 / 100 : ℝ)) ^ (12 : ℕ) := by
      unfold futureValueOfCurrentSavings
      rw [heff, if_pos (by norm_num), if_pos (by norm_num), hpow]
    have hfv_gt : (10000 : ℝ) < futureValueOfCurrentSavings 10000 1 12 9000 := by
      rw [hfv]
      norm_num
    have hreq : requiredFromPayments 10000 1 12 9000 = 0 := by
      unfold requiredFromPayments
      rw [max_eq_left (by linarith)]
    have hraw : rawMonthlyPayment 10000 1 12 9000 = 0 := by
      unfold rawMonthlyPayment
      rw [hreq, if_neg (lt_irrefl 0)]
    have hpay : monthlyPayment 10000 1 12 9000 = 0 := by
      unfold monthlyPayment
      rw [hraw, if_neg (lt_irrefl 0)]
    have hprincipal : totalPrincipal 10000 1 12 9000 = 9000 := by
      unfold totalPrincipal
      rw [heff, hpay, zero_mul, add_zero]
    have hfvp : futureValueOfPayments 10000 1 12 9000 = 0 := by
      unfold futureValueOfPayments
      rw [hpay, if_neg (lt_irrefl 0)]
    have hint : totalInterestEarned 10000 1 12 9000 =
        futureValueOfCurrentSavings 10000 1 12 9000 - 9000 := by
      unfold totalInterestEarned
      rw [if_pos (by norm_num : (0 : ℝ) < 12), hfvp, hprincipal, add_zero]
      exact max_eq_right (by linarith)
    rw [calculate_totalSaved 12 9000 (by norm_num) (by norm_num),
      calculate_interestEarned 12 9000 (by norm_num) (by norm_num), hprincipal, hint]
    linarith

/-- C10 amended: for every valid input with goalAmount > 0 and
timeHorizonYears > 0 the internally computed progressPercentage is exactly
100, because the projected total totalPrincipal + interestEarned is always
at least goalAmount, so the min(100, _) clamp always yields 100. -/
theorem claim_C10_amended (g t r s : ℝ) (hg : 0 < g) (ht : 0 < t) (hr : 0 ≤ r) (hs : 0 ≤ s) :
    (calculate g t r s).progressPercentage = 100 ∧
    g ≤ (calculate g t r s).totalSaved + (calculate g t r s).interestEarned := by
  rw [calculate_progressPercentage r s hg ht, calculate_totalSaved r s hg ht,
    calculate_interestEarned r s hg ht]
  exact ⟨progressPercentage_eq_100 hg ht hr hs, goal_le_finalAmountComputed hg ht hr hs⟩

theorem claim_C10_amended_witness :
    ((0 : ℝ) < 50000 ∧ (0 : ℝ) < 5 ∧ (0 : ℝ) ≤ 7 ∧ (0 : ℝ) ≤ 0) ∧
    ((calculate 50000 5 7 0).progressPercentage = 100 ∧
      50000 ≤ (calculate 50000 5 7 0).totalSaved + (calculate 50000 5 7 0).interestEarned) :=
  ⟨⟨by norm_num, by norm_num, by norm_num, le_rfl⟩,
   claim_C10_amended 50000 5 7 0 (by norm_num) (by norm_num) (by norm_num) le_rfl⟩

/-- C8: the displayed progress ratio divides totalSaved by the echoed goal
amount and is unclamped (it reaches 500 on a degenerate input with savings
far above the goal), while the progressPercentage field is clamped to 100
and is not the displayed ratio. -/
theorem claim_C8_progress_bar :
    (∀ g t r s : ℝ, progressBarWidth (calculate g t r s) =
      (calculate g t r s).totalSaved * 100 / g) ∧
    (∀ g t r s : ℝ, (calculate g t r s).progressPercentage ≤ 100) ∧
    100 < progressBarWidth (calculate 1000 0 0 5000) ∧
    (calculate 1000 0 0 5000).progressPercentage = 0 := by
  refine ⟨?_, ?_, ?_, ?_⟩
  · intro g t r s
    unfold progressBarWidth
    rw [calculate_finalAmount]
  · intro g t r s
    unfold calculate
    split_ifs with h
    · norm_num
    · show progressPercentage g t r s ≤ 100
      unfold progressPercentage
      split_ifs
      · exact min_le_left _ _
      · norm_num
  · norm_num [progressBarWidth, calculate]
  · norm_num [calculate]

theorem example_eff_zero : effectiveCurrentSavings 50000 0 = 0 := by
  unfold effectiveCurrentSavings
  rw [min_eq_left (by norm_num)]

theorem example_fv_zero : futureValueOfCurrentSavings 50000 5 7 0 = 0 := by
  unfold futureValueOfCurrentSavings
  rw [example_eff_zero, if_neg (lt_irrefl 0)]

theorem example_factor_eq :
    futureValueFactor 5 7 = ((1207 / 1200 : ℝ) ^ (60 : ℕ) - 1) / (7 / 1200) := by
  have hpow : ((1 : ℝ) + monthlyRate 7) ^ totalMonths 5 = ((1207 / 1200 : ℝ)) ^ (60 : ℕ) := by
    have h1 : (1 : ℝ) + monthlyRate 7 = 1207 / 1200 := by
      unfold monthlyRate
      norm_num
    have h2 : totalMonths 5 = ((60 : ℕ) : ℝ) := by
      unfold totalMonths
      norm_num
    rw [h1, h2, Real.rpow_natCast]
  unfold futureValueFactor
  rw [hpow]
  unfold monthlyRate
  norm_num

theorem example_payment_eq :
    monthlyPayment 50000 5 7 0 = 50000 / futureValueFactor 5 7 := by
  have hreq : requiredFromPayments 50000 5 7 0 = 50000 := by
    unfold requiredFromPayments
    rw [example_fv_zero]
    norm_num
  rw [monthlyPayment_eq_raw (raw_nonneg 50000 0 (by norm_num) (by norm_num)),
    raw_eq_pos_rate 50000 5 0 (by norm_num), hreq]

/-- C9 counterexample: on goal 50000, horizon 5 years, rate 7 percent, no
savings, the monthly payment is below 709, so it is not approximately 710.1
and cannot round to a 710 dollar display. -/
theorem claim_C9_counterexample :
    (calculate 50000 5 7 0).monthlyPayment < 709 := by
  rw [calculate_monthlyPayment 7 0 (by norm_num) (by norm_num), example_payment_eq,
    example_factor_eq]
  rw [div_lt_iff₀ (by norm_num : (0 : ℝ) < ((1207 / 1200 : ℝ) ^ (60 : ℕ) - 1) / (7 / 1200))]
  norm_num

/-- C9 amended: on goal 50000, horizon 5 years, rate 7 percent, no savings,
the engine uses monthlyRate 7/1200 and 60 months and returns a monthly
payment strictly between 698 and 699 (approximately 698.4, a 698 dollar
display), a positive interestEarned, and
totalPrincipal + interestEarned = 50000 exactly. -/
theorem claim_C9_amended :
    698 < (calculate 50000 5 7 0).monthlyPayment ∧
    (calculate 50000 5 7 0).monthlyPayment < 699 ∧
    0 < (calculate 50000 5 7 0).interestEarned ∧
    (calculate 50000 5 7 0).totalSaved + (calculate 50000 5 7 0).interestEarned = 50000 := by
  have hg : (0 : ℝ) < 50000 := by norm_num
  have ht : (0 : ℝ) < 5 := by norm_num
  have hFpos : 0 < futureValueFactor 5 7 := futureValueFactor_pos ht (by norm_num)
  have hF60 : 60 < futureValueFactor 5 7 := by
    rw [example_factor_eq]
    norm_num
  have hp := example_payment_eq
  have hppos : 0 < monthlyPayment 50000 5 7 0 := by
    rw [hp]
    positivity
  have hmt : totalMonths 5 = 60 := by
    unfold totalMonths
    norm_num
  have hprin : totalPrincipal 50000 5 7 0 = monthlyPayment 50000 5 7 0 * 60 := by
    unfold totalPrincipal
    rw [example_eff_zero, hmt, zero_add]
  have hfvp : futureValueOfPayments 50000 5 7 0 =
      monthlyPayment 50000 5 7 0 * futureValueFactor 5 7 := by
    unfold futureValueOfPayments
    rw [if_pos hppos]
  have hpm : monthlyPayment 50000 5 7 0 * futureValueFactor 5 7 = 50000 := by
    rw [hp, div_mul_cancel₀ _ hFpos.ne']
  have hlt : monthlyPayment 50000 5 7 0 * 60 < 50000 := by
    rw [hp, div_mul_eq_mul_div, div_lt_iff₀ hFpos]
    nlinarith [hF60]
  have hint : totalInterestEarned 50000 5 7 0 = 50000 - monthlyPayment 50000 5 7 0 * 60 := by
    unfold totalInterestEarned
    rw [if_pos (by norm_num : (0 : ℝ) < 7), example_fv_zero, hfvp, hprin, hpm, zero_add]
    exact max_eq_right (by linarith)
  refine ⟨?_, ?_, ?_, ?_⟩
  · rw [calculate_monthlyPayment 7 0 hg ht, hp, example_factor_eq]
    rw [lt_div_iff₀ (by norm_num : (0 : ℝ) < ((1207 / 1200 : ℝ) ^ (60 : ℕ) - 1) / (7 / 1200))]
    norm_num
  · rw [calculate_monthlyPayment 7 0 hg ht, hp, example_factor_eq]
    rw [div_lt_iff₀ (by norm_num : (0 : ℝ) < ((1207 / 1200 : ℝ) ^ (60 : ℕ) - 1) / (7 / 1200))]
    norm_num
  · rw [calculate_interestEarned 7 0 hg ht, hint]
    linarith
  · rw [calculate_interestEarned 7 0 hg ht, calculate_totalSaved 7 0 hg ht, hint, hprin]
    ring

theorem splitOnDot_ne_nil (cs : List Char) : splitOnDot cs ≠ [] := by
  cases cs with
  | nil => simp [splitOnDot]
  | cons c cs =>
    simp only [splitOnDot]
    split_ifs
    · simp
    · cases h : splitOnDot cs with
      | nil => simp
      | cons p ps => simp

theorem joinDots_splitOnDot (cs : List Char) : joinDots (splitOnDot cs) = cs := by
  induction cs with
  | nil => rfl
  | cons c cs ih =>
    obtain ⟨p, ps, hps⟩ : ∃ p ps, splitOnDot cs = p :: ps := by
      cases h : splitOnDot cs with
      | nil => exact absurd h (splitOnDot_ne_nil cs)
      | cons p ps => exact ⟨p, ps, rfl⟩
    rw [hps] at ih
    by_cases hc : c = '.'
    · subst hc
      simp only [splitOnDot, if_pos rfl, hps]
      show ('.' : Char) :: joinDots (p :: ps) = '.' :: cs
      rw [ih]
    · simp only [splitOnDot, if_neg hc, hps]
      cases ps with
      | nil =>
        show c :: p = c :: cs
        rw [show p = cs from ih]
      | cons q qs =>
        show c :: (p ++ '.' :: joinDots (q :: qs)) = c :: cs
        exact congrArg (c :: ·) ih

theorem splitOnDot_length_two {cs : List Char} (h : (splitOnDot cs).length = 2) :
    ∃ p0 p1, splitOnDot cs = [p0, p1] ∧ cs = p0 ++ '.' :: p1 := by
  obtain ⟨p0, p1, hps⟩ := List.length_eq_two.mp h
  refine ⟨p0, p1, hps, ?_⟩
  have hj := joinDots_splitOnDot cs
  rw [hps] at hj
  exact hj.symm

theorem sanitizeChars_false_eq (cs : List Char) :
    sanitizeChars false cs = collapseDecimalPoints (stripToNumeric cs) := by
  unfold sanitizeChars collapseDecimalPoints stripToNumeric
  simp only [Bool.false_and, Bool.false_eq_true, if_false]
  by_cases h1 : (splitOnDot (cs.filter fun c => c.isDigit || c == '.')).length ≤ 1
  · rw [if_neg (by omega), if_pos h1]
  · by_cases h2 : (splitOnDot (cs.filter fun c => c.isDigit || c == '.')).length = 2
    · rw [if_neg (by omega), if_neg h1]
      obtain ⟨p0, p1, hps, hcs⟩ := splitOnDot_length_two h2
      rw [hps, hcs]
      simp
    · rw [if_pos (by omega), if_neg h1]

theorem sanitizeChars_true_eq (cs : List Char) :
    sanitizeChars true cs =
      if (splitOnDot (stripToNumeric cs)).length = 2
      then truncateFractionTwo (stripToNumeric cs)
      else collapseDecimalPoints (stripToNumeric cs) := by
  unfold sanitizeChars collapseDecimalPoints stripToNumeric truncateFractionTwo
  simp only [Bool.true_and]
  by_cases h2 : (splitOnDot (cs.filter fun c => c.isDigit || c == '.')).length = 2
  · rw [if_pos (by simp [h2]), if_pos h2, if_pos (by omega)]
  · rw [if_neg (by simp [h2]), if_neg h2]
    by_cases h1 : (splitOnDot (cs.filter fun c => c.isDigit || c == '.')).length ≤ 1
    · rw [if_neg (by omega), if_pos h1]
    · rw [if_pos (by omega), if_neg h1]

/-- C7 counterexample: on the rate field the raw input 7.67.89 is sanitized
to 7.6789 with a four-digit fractional part, while the claimed
strip-collapse-truncate pipeline yields 7.67: the two-digit truncation is
skipped whenever the stripped input holds more than one decimal point. -/
theorem claim_C7_counterexample :
    sanitizeInput true "7.67.89" = "7.6789" ∧
    claimedRateSanitize "7.67.89" = "7.67" ∧
    ("7.6789" : String) ≠ "7.67" := by
  refine ⟨by decide, by decide, by decide⟩

/-- C7 amended: the sanitizer strips every character outside digits and the
decimal point and collapses multiple decimal points by keeping the first and
concatenating the remaining digit groups; on the rate field it additionally
truncates the fractional part to at most 2 digits, but only when the
stripped input holds exactly one decimal point (with two or more points the
collapsed result is returned untruncated).  The two example inputs of the
claim behave as stated. -/
theorem claim_C7_amended :
    (∀ v : String, sanitizeInput false v =
      String.mk (collapseDecimalPoints (stripToNumeric v.data))) ∧
    (∀ v : String, sanitizeInput true v =
      if (splitOnDot (stripToNumeric v.data)).length = 2
      then String.mk (truncateFractionTwo (stripToNumeric v.data))
      else String.mk (collapseDecimalPoints (stripToNumeric v.data))) ∧
    sanitizeInput false "12.34.56" = "12.3456" ∧
    sanitizeInput true "7.6789" = "7.67" := by
  refine ⟨?_, ?_, by decide, by decide⟩
  · intro v
    unfold sanitizeInput
    rw [sanitizeChars_false_eq]
  · intro v
    unfold sanitizeInput
    rw [sanitizeChars_true_eq]
    split_ifs <;> rfl

end HowMuchToSave
